import Mathlib

/-!
Shallow embedding of two registry client scripts:
`scripts/consume_from_registry.py` (discovery workflow) and
`scripts/publish_server_rest.py` (publish workflow).

Strings placed on the wire are modelled as lists of byte values
(`List Nat`, each entry < 256); `strBytes` maps an ASCII Lean string to
its bytes. HTTP responses are supplied by oracles (the external registry
is not part of the code under verification), and each workflow is a pure
function from its configuration and oracle to an exit code plus the
ordered trace of HTTP requests it issues.
-/

/-- Bytes of an ASCII string (each `Char` mapped to its code point). -/
def strBytes (s : String) : List Nat := s.toList.map Char.toNat

/-- HTTP method of a request issued by either script. -/
inductive Method where
  | GET
  | POST
  | PUT
deriving DecidableEq, Repr

/-- One outbound HTTP request: method, full URL path (as bytes) and
query parameters (as passed to the HTTP library). Headers and JSON
bodies are not modelled; no claim mentions them. -/
structure Request where
  method : Method
  path : List Nat
  params : List (String × String)
deriving DecidableEq, Repr

/-- `requests.Response.raise_for_status` raises `HTTPError` exactly for
client-error (400-499) and server-error (500-599) status codes. -/
def raisesForStatus (status : Nat) : Bool :=
  (400 ≤ status && status < 500) || (500 ≤ status && status < 600)

/-! ## Percent-encoding (`urllib.parse.quote` with `safe=''`) -/

/-- The bytes `urllib.parse.quote` never encodes (its `_ALWAYS_SAFE`
set: ASCII letters, digits, `_`, `.`, `-`, `~`); with `safe=''` every
other byte is percent-encoded. -/
def isAlwaysSafe (b : Nat) : Bool :=
  (65 ≤ b && b ≤ 90) || (97 ≤ b && b ≤ 122) || (48 ≤ b && b ≤ 57) ||
  b == 95 || b == 46 || b == 45 || b == 126

/-- Upper-case hex digit (as a byte) for a nibble value. -/
def hexUpper (n : Nat) : Nat := if n < 10 then 48 + n else 55 + n

/-- `urllib.parse.quote(s, safe='')` over bytes: safe bytes pass
through, every other byte becomes `%XX` with upper-case hex. -/
def quoteBytes : List Nat → List Nat
  | [] => []
  | b :: rest =>
    (if isAlwaysSafe b then [b] else [37, hexUpper (b / 16), hexUpper (b % 16)])
      ++ quoteBytes rest

/-- Value of a hex digit byte, `none` for a non-hex byte. -/
def hexVal (c : Nat) : Option Nat :=
  if 48 ≤ c ∧ c ≤ 57 then some (c - 48)
  else if 65 ≤ c ∧ c ≤ 70 then some (c - 55)
  else if 97 ≤ c ∧ c ≤ 102 then some (c - 87)
  else none

/-- `urllib.parse.unquote` over bytes: a `%` followed by two hex digits
decodes to one byte; any other byte (including a `%` not followed by a
valid hex pair) is kept as-is. -/
def unquoteBytes : List Nat → List Nat
  | [] => []
  | [b] => [b]
  | [b, h] => [b, h]
  | b :: h :: l :: rest =>
    if b = 37 then
      match hexVal h, hexVal l with
      | some hi, some lo => (16 * hi + lo) :: unquoteBytes rest
      | _, _ => b :: unquoteBytes (h :: l :: rest)
    else b :: unquoteBytes (h :: l :: rest)

/-! ## Discovery client (`MCPRegistryClient` in `consume_from_registry.py`) -/

/-- `str.rstrip('/')` over bytes: drop trailing slash bytes. -/
def rstripSlash (l : List Nat) : List Nat :=
  (l.reverse.dropWhile (fun b => b == 47)).reverse

/-- `MCPRegistryClient.__init__`: `api_base = registry_url.rstrip('/') + "/v0.1"`. -/
def consumeApiBase (registry_url : List Nat) : List Nat :=
  rstripSlash registry_url ++ strBytes "/v0.1"

/-- Query-parameter dict built by `MCPRegistryClient.list_servers`:
`limit` and `version` always; `search` and `cursor` added only when
truthy (Python `if search:` / `if cursor:`), i.e. present and nonempty.
List order matches dict insertion order. -/
def list_servers_params (search : Option String) (version : String)
    (limit : Int) (cursor : Option String) : List (String × String) :=
  [("limit", toString limit), ("version", version)]
    ++ (match search with
        | some s => if s = "" then [] else [("search", s)]
        | none => [])
    ++ (match cursor with
        | some c => if c = "" then [] else [("cursor", c)]
        | none => [])

/-- The request issued by `MCPRegistryClient.list_servers`:
`GET {api_base}/servers` with the params dict above. -/
def list_servers_req (registry_url : List Nat) (search : Option String)
    (version : String) (limit : Int) (cursor : Option String) : Request :=
  ⟨.GET, consumeApiBase registry_url ++ strBytes "/servers",
    list_servers_params search version limit cursor⟩

/-- Path requested by `MCPRegistryClient.get_server_version`: name and
version are each passed through `quote(·, safe='')` and then
interpolated into `{api_base}/servers/{name}/versions/{version}`. -/
def get_server_version_path (registry_url name version : List Nat) : List Nat :=
  consumeApiBase registry_url ++ strBytes "/servers/" ++ quoteBytes name
    ++ strBytes "/versions/" ++ quoteBytes version

/-- The request issued by `MCPRegistryClient.get_server_version`. -/
def get_server_version_req (registry_url name version : List Nat) : Request :=
  ⟨.GET, get_server_version_path registry_url name version, []⟩

/-- `MCPRegistryClient.get_server`: delegates to
`get_server_version(server_name, "latest")`. -/
def get_server_req (registry_url name : List Nat) : Request :=
  get_server_version_req registry_url name (strBytes "latest")

/-- `get_server` run against a response oracle: the oracle's answer to
the single request the method issues (`requests.get` + `raise_for_status`
+ `.json()`, all driven by the response). -/
def get_server_run {α : Type} (resp : Request → α) (registry_url name : List Nat) : α :=
  resp (get_server_req registry_url name)

/-- `get_server_version` run against a response oracle. -/
def get_server_version_run {α : Type} (resp : Request → α)
    (registry_url name version : List Nat) : α :=
  resp (get_server_version_req registry_url name version)

/-- Modelled from the spec words for the refinement claim: the request
`getServer` is required to issue — the `getServerVersion` request path
with the literal version `latest` in the version slot. -/
def get_server_spec_req (registry_url name : List Nat) : Request :=
  ⟨.GET, consumeApiBase registry_url ++ strBytes "/servers/" ++ quoteBytes name
    ++ strBytes "/versions/latest", []⟩

/-! ## Discovery workflow (`main` and the five example functions) -/

/-- Outcome of one guarded single-server lookup: whether the local
handler printed the not-found message, and whether an exception
propagated out of the example function. -/
structure LookupOutcome where
  notFoundPrinted : Bool
  propagates : Bool
deriving DecidableEq, Repr

/-- `example_1_search_servers` has no handler: the `HTTPError` raised by
`list_servers`' `raise_for_status` propagates iff the status is an error
status. Result: whether an exception propagates out. -/
def example_1_search_servers (status : Nat) : Bool :=
  raisesForStatus status

/-- `example_2_get_specific_server`: catches `HTTPError`; status 404
prints the not-found message, any other caught error status re-raises. -/
def example_2_get_specific_server (status : Nat) : LookupOutcome :=
  if raisesForStatus status then
    if status = 404 then ⟨true, false⟩ else ⟨false, true⟩
  else ⟨false, false⟩

/-- `example_3_list_versions`: same guard as example 2. -/
def example_3_list_versions (status : Nat) : LookupOutcome :=
  if raisesForStatus status then
    if status = 404 then ⟨true, false⟩ else ⟨false, true⟩
  else ⟨false, false⟩

/-- `example_4_list_all_servers` has no handler: it propagates iff any
of its successive `list_servers` calls hits an error status. -/
def example_4_list_all_servers_raises (statuses : List Nat) : Bool :=
  statuses.any raisesForStatus

/-- `example_5_installation_info`: same guard as example 2. -/
def example_5_installation_info (status : Nat) : LookupOutcome :=
  if raisesForStatus status then
    if status = 404 then ⟨true, false⟩ else ⟨false, true⟩
  else ⟨false, false⟩

/-- Response statuses the registry hands each example's HTTP calls
during one run of the discovery `main` (`s4` lists the statuses of
example 4's successive page requests). `healthReachable` is whether the
initial `requests.get(health)` connects at all. -/
structure DiscoveryWorld where
  healthReachable : Bool
  s1 : Nat
  s2 : Nat
  s3 : Nat
  s4 : List Nat
  s5 : Nat
deriving DecidableEq, Repr

/-- Whether each example, when reached, lets an exception escape. -/
def ex1P (w : DiscoveryWorld) : Bool := example_1_search_servers w.s1
def ex2P (w : DiscoveryWorld) : Bool := (example_2_get_specific_server w.s2).propagates
def ex3P (w : DiscoveryWorld) : Bool := (example_3_list_versions w.s3).propagates
def ex4P (w : DiscoveryWorld) : Bool := example_4_list_all_servers_raises w.s4
def ex5P (w : DiscoveryWorld) : Bool := (example_5_installation_info w.s5).propagates

/-- Result of one run of the discovery `main`: which examples started
executing, whether the outermost `except` caught an error, and whether
any exception escaped `main` itself. -/
structure DiscoveryRun where
  ran : List Nat
  caughtAtTop : Bool
  raisedOut : Bool
deriving DecidableEq, Repr

/-- `main` of `consume_from_registry.py`: health check (connection
failure returns early), then examples 1-5 inside one `try` block run
in order until the first one lets an exception escape; the single
outermost `except Exception` catches it for reporting, so nothing
escapes `main`. -/
def discoveryMain (w : DiscoveryWorld) : DiscoveryRun :=
  if ¬ w.healthReachable then ⟨[], false, false⟩
  else if ex1P w then ⟨[1], true, false⟩
  else if ex2P w then ⟨[1, 2], true, false⟩
  else if ex3P w then ⟨[1, 2, 3], true, false⟩
  else if ex4P w then ⟨[1, 2, 3, 4], true, false⟩
  else if ex5P w then ⟨[1, 2, 3, 4, 5], true, false⟩
  else ⟨[1, 2, 3, 4, 5], false, false⟩

/-! ## Pagination loop of `example_4_list_all_servers` -/

/-- The `while True` pagination loop of `example_4_list_all_servers`,
run against a registry oracle `reg` mapping the cursor passed to
`list_servers` to that call's `(servers, nextCursor)` answer. Each
iteration is one listing call; the loop breaks when the returned cursor
is falsy (absent or empty). The loop itself has no bound, so it is
modelled with fuel: `none` means the fuel ran out before the loop broke.
Returns the accumulated `all_servers` list and the number of listing
calls made. -/
def listAllLoop {α : Type} (reg : Option String → List α × Option String) :
    Nat → Option String → Option (List α × Nat)
  | 0, _ => none
  | fuel + 1, cursor =>
    match reg cursor with
    | (items, none) => some (items, 1)
    | (items, some c) =>
      if c = "" then some (items, 1)
      else
        match listAllLoop reg fuel (some c) with
        | none => none
        | some (rest, n) => some (items ++ rest, n + 1)

/-- The registry serves a finite chain of pages starting from a given
cursor: each page's truthy `nextCursor` leads to the next page, and the
final page carries no cursor. -/
inductive RegChain {α : Type} (reg : Option String → List α × Option String) :
    Option String → List (List α × Option String) → Prop
  | lastPage (cursor : Option String) (items : List α) :
      reg cursor = (items, none) → RegChain reg cursor [(items, none)]
  | nextPage (cursor : Option String) (items : List α) (c : String)
      (rest : List (List α × Option String)) :
      reg cursor = (items, some c) → c ≠ "" → RegChain reg (some c) rest →
      RegChain reg cursor ((items, some c) :: rest)

/-- A concrete two-page registry used to exercise the pagination
theorem on explicit input. -/
def twoPageReg : Option String → List String × Option String :=
  fun cursor =>
    match cursor with
    | none => (["alpha"], some "c1")
    | some s => if s = "c1" then (["beta"], none) else ([], none)

/-- The page chain `twoPageReg` serves starting from no cursor. -/
def twoPages : List (List String × Option String) :=
  [(["alpha"], some "c1"), (["beta"], none)]

/-! ## Publish workflow (`publish_server_rest.py`) -/

/-- Printed/raised outcome of the status check in `publish_server` /
`update_server_version`: whether the structured error body was printed,
and whether `raise_for_status()` then raised. -/
structure SubmitOutcome where
  printedError : Bool
  raised : Bool
deriving DecidableEq, Repr

/-- Status handling in `publish_server`: any status outside {200, 201}
prints the error body and then calls `raise_for_status()`, which raises
only for 4xx/5xx statuses. -/
def publish_server_outcome (status : Nat) : SubmitOutcome :=
  if status = 200 ∨ status = 201 then ⟨false, false⟩
  else ⟨true, raisesForStatus status⟩

/-- Status handling in `update_server_version`: any status other than
200 prints the error body and then calls `raise_for_status()`. -/
def update_server_version_outcome (status : Nat) : SubmitOutcome :=
  if status = 200 then ⟨false, false⟩
  else ⟨true, raisesForStatus status⟩

/-- The endpoint string built by `update_server_version`:
`f"{registry_url}/v0.1/servers/{server_name}/versions/{version}"` —
plain interpolation, no percent-encoding. -/
def updateEndpoint (registry_url server_name version : String) : String :=
  registry_url ++ "/v0.1/servers/" ++ server_name ++ "/versions/" ++ version

/-- The descriptor as loaded from `server.json`: a JSON object read only
through `.get(key, default)` on string-valued fields. -/
abbrev ServerData := List (String × String)

/-- `server_data.get(key, default)`. -/
def getField (d : ServerData) (key dflt : String) : String :=
  (d.lookup key).getD dflt

/-- Configuration of one publish run, resolved from environment
variables at the top of `main`. -/
structure PublishConfig where
  registry_url : String
  auth_token : Option String
  update_mode : Bool
  auto_auth : Bool
deriving DecidableEq, Repr

/-- Python truthiness of the `auth_token` value (`if not auth_token`):
an unset or empty token is falsy. -/
def tokenTruthy : Option String → Bool
  | none => false
  | some s => if s = "" then false else true

/-- External answers one publish run receives: the parsed descriptor
file (`json.load` may fail), the schema fetch status, the verdict of
`jsonschema.validate`, and the statuses of the connectivity check, the
`/auth/none` call, the submission and the verification query. -/
structure PublishWorld where
  descriptor : Except String ServerData
  schemaStatus : Nat
  validationOk : Bool
  connectStatus : Nat
  authStatus : Nat
  submitStatus : Nat
  verifyStatus : Nat
deriving Repr

/-- The schema download request made inside `validate_server_json`. -/
def schemaReq : Request :=
  ⟨.GET, strBytes "https://static.modelcontextprotocol.io/schemas/2025-09-29/server.schema.json", []⟩

/-- `name` the run works with: `server_data.get('name', 'unknown')`. -/
def descName (w : PublishWorld) : String :=
  match w.descriptor with
  | .ok d => getField d "name" "unknown"
  | .error _ => "unknown"

/-- `version` the run works with: `server_data.get('version', 'unknown')`. -/
def descVersion (w : PublishWorld) : String :=
  match w.descriptor with
  | .ok d => getField d "version" "unknown"
  | .error _ => "unknown"

/-- Submission request selected by `main`: in update mode a PUT to the
raw-interpolated name+version endpoint, otherwise a POST to
`{registry_url}/v0.1/publish`. -/
def submissionReq (cfg : PublishConfig) (server_name server_version : String) : Request :=
  if cfg.update_mode then
    ⟨.PUT, strBytes (updateEndpoint cfg.registry_url server_name server_version), []⟩
  else
    ⟨.POST, strBytes (cfg.registry_url ++ "/v0.1/publish"), []⟩

/-- Submission step onward (`main` after auth): issue the PUT or POST,
abort if the outcome raised, then run the verification query
(`get_server_info`, a GET on the listing endpoint with `search`). -/
def runSubmission (cfg : PublishConfig) (w : PublishWorld)
    (server_name server_version : String) (trace : List Request) : Nat × List Request :=
  let t := trace ++ [submissionReq cfg server_name server_version]
  let out := if cfg.update_mode then update_server_version_outcome w.submitStatus
             else publish_server_outcome w.submitStatus
  if out.raised then (1, t)
  else
    let t2 := t ++ [⟨.GET, strBytes (cfg.registry_url ++ "/v0.1/servers"), [("search", server_name)]⟩]
    if raisesForStatus w.verifyStatus then (1, t2) else (0, t2)

/-- One run of `main` in `publish_server_rest.py`, as exit code plus the
ordered trace of HTTP requests issued. Steps, in source order: load and
validate the descriptor (file parse, schema GET, `jsonschema.validate`),
connectivity GET on the listing endpoint, optional `/auth/none` POST,
submission, verification. Any exception makes the process exit 1. -/
def runPublish (cfg : PublishConfig) (w : PublishWorld) : Nat × List Request :=
  match w.descriptor with
  | .error _ => (1, [])
  | .ok server_data =>
    let t1 : List Request := [schemaReq]
    if raisesForStatus w.schemaStatus then (1, t1)
    else if ¬ w.validationOk then (1, t1)
    else
      let server_name := getField server_data "name" "unknown"
      let server_version := getField server_data "version" "unknown"
      let t2 := t1 ++ [⟨.GET, strBytes (cfg.registry_url ++ "/v0.1/servers"), []⟩]
      if raisesForStatus w.connectStatus then (1, t2)
      else if ¬ tokenTruthy cfg.auth_token ∧ cfg.auto_auth then
        let t3 := t2 ++ [⟨.POST, strBytes (cfg.registry_url ++ "/v0.1/auth/none"), []⟩]
        if raisesForStatus w.authStatus then (1, t3)
        else runSubmission cfg w server_name server_version t3
      else runSubmission cfg w server_name server_version t2

/-- A request counts as a submission when it is a POST to the publish
endpoint or a PUT (the only PUT either script ever issues targets the
name+version submission endpoint). -/
def isSubmissionReq (registry_url : String) (r : Request) : Bool :=
  match r.method with
  | .POST => decide (r.path = strBytes (registry_url ++ "/v0.1/publish"))
  | .PUT => true
  | .GET => false

/-- The submission requests contained in a trace. -/
def submissionRequests (registry_url : String) (trace : List Request) : List Request :=
  trace.filter (isSubmissionReq registry_url)

/-- Number of path separators in a byte string. -/
def slashCount (l : List Nat) : Nat := l.count 47

/-! ## Concrete inputs used to exercise the theorems -/

/-- A discovery run whose first example hits a 500 (a non-404 HTTP
failure) while everything else would succeed. -/
def discFailW : DiscoveryWorld := ⟨true, 500, 200, 200, [200], 200⟩

/-- A discovery run in which every call succeeds. -/
def discOkW : DiscoveryWorld := ⟨true, 200, 200, 200, [200], 200⟩

/-- A publish configuration in publish (non-update) mode with auto-auth. -/
def cfgPub : PublishConfig := ⟨"http://localhost:8080", none, false, true⟩

/-- A publish run in which every step succeeds (submission answers 201). -/
def pubOkW : PublishWorld :=
  ⟨.ok [("name", "ns/srv"), ("version", "1.0.0")], 200, true, 200, 200, 201, 200⟩

/-- A publish run whose descriptor fails JSON-schema validation. -/
def pubBadValW : PublishWorld :=
  ⟨.ok [("version", "1.0.0")], 200, false, 200, 200, 201, 200⟩

/-! ## Helper lemmas -/

theorem strBytes_append (a b : String) : strBytes (a ++ b) = strBytes a ++ strBytes b := by
  simp [strBytes, String.toList, String.data_append]

theorem unquote_cons_of_ne37 (b : Nat) (t : List Nat) (h : b ≠ 37) :
    unquoteBytes (b :: t) = b :: unquoteBytes t := by
  match t with
  | [] => simp [unquoteBytes]
  | [x] => simp [unquoteBytes]
  | x :: y :: r => simp [unquoteBytes, h]

theorem hexVal_hexUpper (n : Nat) (h : n < 16) : hexVal (hexUpper n) = some n := by
  interval_cases n <;> decide

theorem isAlwaysSafe_ne (b : Nat) (h : isAlwaysSafe b = true) : b ≠ 37 ∧ b ≠ 47 := by
  simp [isAlwaysSafe] at h
  omega

theorem hexUpper_ne_47 (n : Nat) : hexUpper n ≠ 47 := by
  unfold hexUpper
  split <;> omega

theorem unquote_quoteBytes (s : List Nat) (h : ∀ b ∈ s, b < 256) :
    unquoteBytes (quoteBytes s) = s := by
  induction s with
  | nil => rfl
  | cons b rest ih =>
    have hb : b < 256 := h b (List.mem_cons_self _ _)
    have hrest : ∀ x ∈ rest, x < 256 := fun x hx => h x (List.mem_cons_of_mem _ hx)
    by_cases hs : isAlwaysSafe b
    · have hb37 : b ≠ 37 := (isAlwaysSafe_ne b hs).1
      rw [show quoteBytes (b :: rest) = b :: quoteBytes rest from by simp [quoteBytes, hs]]
      rw [unquote_cons_of_ne37 b _ hb37, ih hrest]
    · have h16 : b / 16 < 16 := by omega
      have h16' : b % 16 < 16 := Nat.mod_lt _ (by omega)
      rw [show quoteBytes (b :: rest)
            = 37 :: hexUpper (b / 16) :: hexUpper (b % 16) :: quoteBytes rest from by
          simp [quoteBytes, hs]]
      simp [unquoteBytes, hexVal_hexUpper _ h16, hexVal_hexUpper _ h16', ih hrest]
      omega

theorem slash_not_mem_quoteBytes (s : List Nat) : 47 ∉ quoteBytes s := by
  induction s with
  | nil => simp [quoteBytes]
  | cons b rest ih =>
    have hu1 := hexUpper_ne_47 (b / 16)
    have hu2 := hexUpper_ne_47 (b % 16)
    by_cases hs : isAlwaysSafe b
    · have hb := (isAlwaysSafe_ne b hs).2
      simp [quoteBytes, hs, List.mem_cons, ih]
      omega
    · simp [quoteBytes, hs, List.mem_cons, ih]
      omega

/-! ## Claim theorems -/

/-- C5: for every server name, `get_server(name)` is equivalent to
`get_server_version(name, "latest")`: it issues the very request the
spec prescribes (same path, version slot `latest`), and against any
response oracle the two calls return the identical result. -/
theorem get_server_equiv_latest (registry_url name : List Nat) :
    get_server_req registry_url name = get_server_spec_req registry_url name ∧
    ∀ {α : Type} (resp : Request → α),
      get_server_run resp registry_url name
        = get_server_version_run resp registry_url name (strBytes "latest") := by
  constructor
  · have hL : strBytes "/versions/" ++ quoteBytes (strBytes "latest")
        = strBytes "/versions/latest" := by decide
    simp [get_server_req, get_server_version_req, get_server_version_path,
      get_server_spec_req, List.append_assoc, hL]
  · intro α resp
    rfl

/-- C6: `get_server_version` percent-encodes the name and the version
independently before interpolating each into the path; the encoded name
and version contain no `/` byte (each occupies a single path segment),
and percent-decoding each segment reconstructs the original string
exactly. -/
theorem get_server_version_percent_encoding (registry_url name version : List Nat)
    (hn : ∀ b ∈ name, b < 256) (hv : ∀ b ∈ version, b < 256) :
    get_server_version_path registry_url name version
      = consumeApiBase registry_url ++ strBytes "/servers/" ++ quoteBytes name
        ++ strBytes "/versions/" ++ quoteBytes version ∧
    47 ∉ quoteBytes name ∧ 47 ∉ quoteBytes version ∧
    unquoteBytes (quoteBytes name) = name ∧
    unquoteBytes (quoteBytes version) = version :=
  ⟨rfl, slash_not_mem_quoteBytes name, slash_not_mem_quoteBytes version,
    unquote_quoteBytes name hn, unquote_quoteBytes version hv⟩

/-- Witness for C6 at the spec's own example: the name
`io.example/my-server` (which contains a `/`) and version `1.0.0`. -/
theorem get_server_version_percent_encoding_witness :
    47 ∉ quoteBytes (strBytes "io.example/my-server") ∧
    unquoteBytes (quoteBytes (strBytes "io.example/my-server"))
      = strBytes "io.example/my-server" :=
  ⟨(get_server_version_percent_encoding (strBytes "http://localhost:8080")
      (strBytes "io.example/my-server") (strBytes "1.0.0")
      (by decide) (by decide)).2.1,
   (get_server_version_percent_encoding (strBytes "http://localhost:8080")
      (strBytes "io.example/my-server") (strBytes "1.0.0")
      (by decide) (by decide)).2.2.2.1⟩

/-- C10: `update_server_version` interpolates name and version into the
URL raw (no percent-encoding), so a name containing `/` contributes its
slashes to the PUT path, splitting the name across path segments; the
discovery client's lookup path instead carries the name as a single
encoded segment (its name and version segments contain no `/`). -/
theorem update_endpoint_raw_interpolation (url name version : String) :
    strBytes (updateEndpoint url name version)
      = strBytes url ++ strBytes "/v0.1/servers/" ++ strBytes name
        ++ strBytes "/versions/" ++ strBytes version ∧
    (47 ∈ strBytes name →
      slashCount (strBytes (updateEndpoint url name version))
        ≥ slashCount (strBytes url) + slashCount (strBytes version) + 6) ∧
    slashCount (get_server_version_path (strBytes url) (strBytes name) (strBytes version))
      = slashCount (consumeApiBase (strBytes url)) + 4 := by
  refine ⟨?_, ?_, ?_⟩
  · simp [updateEndpoint, strBytes_append]
  · intro hmem
    have hpos : 0 < List.count 47 (strBytes name) :=
      List.count_pos_iff.mpr hmem
    have h1 : List.count 47 (strBytes "/v0.1/servers/") = 3 := by decide
    have h2 : List.count 47 (strBytes "/versions/") = 2 := by decide
    simp only [updateEndpoint, strBytes_append, slashCount, List.count_append]
    omega
  · have hq1 : List.count 47 (quoteBytes (strBytes name)) = 0 :=
      List.count_eq_zero_of_not_mem (slash_not_mem_quoteBytes _)
    have hq2 : List.count 47 (quoteBytes (strBytes version)) = 0 :=
      List.count_eq_zero_of_not_mem (slash_not_mem_quoteBytes _)
    have h1 : List.count 47 (strBytes "/servers/") = 2 := by decide
    have h2 : List.count 47 (strBytes "/versions/") = 2 := by decide
    simp only [get_server_version_path, slashCount, List.count_append]
    omega

/-- Witness for C10 at a namespaced name: `ns/srv` contains a slash, so
the PUT path gains a sixth separator while the encoded lookup segment
gains none. -/
theorem update_endpoint_raw_interpolation_witness :
    slashCount (strBytes (updateEndpoint "http://localhost:8080" "ns/srv" "1.0.0"))
      ≥ slashCount (strBytes "http://localhost:8080") + slashCount (strBytes "1.0.0") + 6 :=
  (update_endpoint_raw_interpolation "http://localhost:8080" "ns/srv" "1.0.0").2.1
    (by decide)

/-- C3 counterexample: the claim says the limit sent to the registry is
constrained to 1-100, but `list_servers` passes the caller's limit
through unmodified: with `limit=1000` the request carries
`limit=1000`, outside the accepted range. -/
theorem list_servers_limit_not_clamped :
    (list_servers_req (strBytes "http://localhost:8080") none "latest" 1000 none).params.lookup "limit"
      = some "1000" ∧
    ¬ ((1 : Int) ≤ 1000 ∧ (1000 : Int) ≤ 100) := by
  constructor
  · rfl
  · decide

/-- C3 as amended: `list_servers` sends the caller's limit through
unmodified (no clamping to 1-100), always sends `version`, and omits
`search`/`cursor` from the request exactly when they are falsy (absent
or the empty string). -/
theorem list_servers_params_passthrough (search : Option String) (version : String)
    (limit : Int) (cursor : Option String) :
    (list_servers_params search version limit cursor).lookup "limit"
      = some (toString limit) ∧
    (list_servers_params search version limit cursor).lookup "version" = some version ∧
    (list_servers_params search version limit cursor).lookup "search"
      = (match search with
         | none => none
         | some s => if s = "" then none else some s) ∧
    (list_servers_params search version limit cursor).lookup "cursor"
      = (match cursor with
         | none => none
         | some c => if c = "" then none else some c) := by
  rcases search with _ | s <;> rcases cursor with _ | c <;>
    simp only [list_servers_params] <;> (try split_ifs) <;> exact ⟨rfl, rfl, rfl, rfl⟩

/-- C7 counterexample: the claim says any non-success submission status
prints the error body and then raises, aborting the run; but for a
non-success status below 400 (PUT answered 201, POST answered 202) the
error body is printed and `raise_for_status()` does not raise, so the
run continues. -/
theorem submission_nonfatal_status_counterexample :
    update_server_version_outcome 201 = ⟨true, false⟩ ∧
    publish_server_outcome 202 = ⟨true, false⟩ := by
  decide

/-- C7 as amended: the PUT treats exactly status 200 as success and the
POST exactly 200 and 201; on any other status the structured error body
is printed and `raise_for_status()` is then called, which raises (and
aborts the run) exactly when the status is in 400-599 — a non-success
status below 400 prints the body but does not abort. -/
theorem submission_status_handling (s : Nat) :
    (update_server_version_outcome s = ⟨false, false⟩ ↔ s = 200) ∧
    (publish_server_outcome s = ⟨false, false⟩ ↔ (s = 200 ∨ s = 201)) ∧
    (s ≠ 200 → (update_server_version_outcome s).printedError = true ∧
      ((update_server_version_outcome s).raised = true ↔ raisesForStatus s = true)) ∧
    (¬ (s = 200 ∨ s = 201) → (publish_server_outcome s).printedError = true ∧
      ((publish_server_outcome s).raised = true ↔ raisesForStatus s = true)) ∧
    (raisesForStatus s = true ↔ (400 ≤ s ∧ s < 600)) := by
  refine ⟨?_, ?_, ?_, ?_, ?_⟩
  · unfold update_server_version_outcome
    split_ifs with h <;> simp [h]
  · unfold publish_server_outcome
    split_ifs with h <;> simp [h]
  · intro h
    unfold update_server_version_outcome
    rw [if_neg h]
    exact ⟨rfl, Iff.rfl⟩
  · intro h
    unfold publish_server_outcome
    rw [if_neg h]
    exact ⟨rfl, Iff.rfl⟩
  · simp only [raisesForStatus, Bool.or_eq_true, Bool.and_eq_true, decide_eq_true_eq]
    omega

/-- Witness for C7 at statuses 404 and 422: the hypotheses of the
amended statement are discharged concretely. -/
theorem submission_status_handling_witness :
    ((update_server_version_outcome 404).printedError = true ∧
      ((update_server_version_outcome 404).raised = true ↔ raisesForStatus 404 = true)) ∧
    ((publish_server_outcome 422).printedError = true ∧
      ((publish_server_outcome 422).raised = true ↔ raisesForStatus 422 = true)) :=
  ⟨(submission_status_handling 404).2.2.1 (by decide),
   (submission_status_handling 422).2.2.2.1 (by decide)⟩

/-- C8: in each guarded single-server lookup of the discovery workflow
(get details, list versions, installation info) a 404 is caught locally,
the not-found message is printed and nothing propagates out of the
example; any other HTTP error status is re-raised. -/
theorem single_lookup_404_policy (s : Nat) :
    (s = 404 →
      example_2_get_specific_server s = ⟨true, false⟩ ∧
      example_3_list_versions s = ⟨true, false⟩ ∧
      example_5_installation_info s = ⟨true, false⟩) ∧
    (raisesForStatus s = true → s ≠ 404 →
      (example_2_get_specific_server s).propagates = true ∧
      (example_3_list_versions s).propagates = true ∧
      (example_5_installation_info s).propagates = true) := by
  constructor
  · rintro rfl
    decide
  · intro hr h404
    simp [example_2_get_specific_server, example_3_list_versions,
      example_5_installation_info, hr, h404]

/-- Witness for C8 at statuses 404 and 500. -/
theorem single_lookup_404_policy_witness :
    example_2_get_specific_server 404 = ⟨true, false⟩ ∧
    (example_3_list_versions 500).propagates = true :=
  ⟨((single_lookup_404_policy 404).1 rfl).1,
   ((single_lookup_404_policy 500).2 (by decide) (by decide)).2.1⟩

/-- C4 counterexample: the claim says sibling examples still run to
completion after a non-404 HTTP failure, but all five examples sit in
one `try` block of `main`: when example 1 hits a 500 (a propagating
non-404 HTTP failure), only example 1 ran — example 2 (a sibling) never
starts — and the outermost handler catches the error. -/
theorem discovery_failure_stops_siblings :
    example_1_search_servers discFailW.s1 = true ∧ discFailW.s1 ≠ 404 ∧
    (discoveryMain discFailW).ran = [1] ∧ 2 ∉ (discoveryMain discFailW).ran ∧
    (discoveryMain discFailW).caughtAtTop = true := by
  decide

/-- C4 as amended: a propagating (non-404) HTTP failure inside one
example aborts that example's remaining steps and all subsequent
examples — an example runs iff every earlier example finished without a
propagating error — and only the outermost driver catches the error for
reporting (nothing escapes `main`). -/
theorem discovery_error_aborts_rest (w : DiscoveryWorld)
    (h : w.healthReachable = true) :
    (discoveryMain w).raisedOut = false ∧
    1 ∈ (discoveryMain w).ran ∧
    (2 ∈ (discoveryMain w).ran ↔ ex1P w = false) ∧
    (3 ∈ (discoveryMain w).ran ↔ ex1P w = false ∧ ex2P w = false) ∧
    (4 ∈ (discoveryMain w).ran ↔ ex1P w = false ∧ ex2P w = false ∧ ex3P w = false) ∧
    (5 ∈ (discoveryMain w).ran ↔
      ex1P w = false ∧ ex2P w = false ∧ ex3P w = false ∧ ex4P w = false) ∧
    ((discoveryMain w).caughtAtTop = true ↔
      (ex1P w || ex2P w || ex3P w || ex4P w || ex5P w) = true) := by
  cases h1 : ex1P w <;> cases h2 : ex2P w <;> cases h3 : ex3P w <;>
    cases h4 : ex4P w <;> cases h5 : ex5P w <;>
    simp [discoveryMain, h, h1, h2, h3, h4, h5]

/-- Witness for C4's amended statement on a fully healthy run. -/
theorem discovery_error_aborts_rest_witness :
    (discoveryMain discOkW).raisedOut = false ∧
    1 ∈ (discoveryMain discOkW).ran ∧
    (2 ∈ (discoveryMain discOkW).ran ↔ ex1P discOkW = false) ∧
    (3 ∈ (discoveryMain discOkW).ran ↔ ex1P discOkW = false ∧ ex2P discOkW = false) ∧
    (4 ∈ (discoveryMain discOkW).ran ↔
      ex1P discOkW = false ∧ ex2P discOkW = false ∧ ex3P discOkW = false) ∧
    (5 ∈ (discoveryMain discOkW).ran ↔
      ex1P discOkW = false ∧ ex2P discOkW = false ∧ ex3P discOkW = false ∧
        ex4P discOkW = false) ∧
    ((discoveryMain discOkW).caughtAtTop = true ↔
      (ex1P discOkW || ex2P discOkW || ex3P discOkW || ex4P discOkW ||
        ex5P discOkW) = true) :=
  discovery_error_aborts_rest discOkW rfl

/-- The pagination loop, run with enough fuel on a registry serving a
finite chain of pages from the given cursor, makes exactly one listing
call per page and accumulates the pages' items in order. -/
theorem listAllLoop_chain {α : Type} (reg : Option String → List α × Option String)
    (pages : List (List α × Option String)) (cursor : Option String)
    (h : RegChain reg cursor pages) :
    ∀ fuel, pages.length ≤ fuel →
      listAllLoop reg fuel cursor = some ((pages.map Prod.fst).flatten, pages.length) := by
  induction h with
  | lastPage cursor items hreg =>
    intro fuel hf
    match fuel, hf with
    | fuel + 1, _ => simp [listAllLoop, hreg]
  | nextPage cursor items c rest hreg hc _ ih =>
    intro fuel hf
    match fuel, hf with
    | fuel + 1, hf =>
      have : rest.length ≤ fuel := by
        simpa using Nat.le_of_succ_le_succ hf
      simp [listAllLoop, hreg, hc, ih fuel this]

/-- C9: for a registry serving a finite sequence of pages (the last one
carrying no next cursor, the others a truthy one), the full-catalog
enumeration of `example_4_list_all_servers` terminates after exactly
`N = pages.length` listing calls and its accumulated list is the
concatenation, in order, of all the pages' items (the registry's full
catalog). -/
theorem pagination_terminates_collects_all {α : Type}
    (reg : Option String → List α × Option String)
    (pages : List (List α × Option String)) (fuel : Nat)
    (h : RegChain reg none pages) (hf : pages.length ≤ fuel) :
    listAllLoop reg fuel none = some ((pages.map Prod.fst).flatten, pages.length) :=
  listAllLoop_chain reg pages none h fuel hf

/-- Witness for C9 on the concrete two-page registry. -/
theorem pagination_terminates_collects_all_witness :
    listAllLoop twoPageReg 2 none = some ((twoPages.map Prod.fst).flatten, twoPages.length) :=
  pagination_terminates_collects_all twoPageReg twoPages 2
    (RegChain.nextPage none ["alpha"] "c1" [(["beta"], none)] rfl (by decide)
      (RegChain.lastPage (some "c1") ["beta"] rfl))
    (by decide)

theorem isSubmissionReq_GET (u : String) (p : List Nat) (ps : List (String × String)) :
    isSubmissionReq u ⟨.GET, p, ps⟩ = false := rfl

theorem isSubmissionReq_auth (u : String) :
    isSubmissionReq u ⟨.POST, strBytes (u ++ "/v0.1/auth/none"), []⟩ = false := by
  simp only [isSubmissionReq]
  refine decide_eq_false fun h => ?_
  rw [strBytes_append, strBytes_append] at h
  exact absurd (List.append_cancel_left h) (by decide)

theorem isSubmissionReq_self (cfg : PublishConfig) (n v : String) :
    isSubmissionReq cfg.registry_url (submissionReq cfg n v) = true := by
  unfold submissionReq isSubmissionReq
  split_ifs <;> simp

theorem submissionRequests_runSubmission (cfg : PublishConfig) (w : PublishWorld)
    (n v : String) (t : List Request) :
    submissionRequests cfg.registry_url (runSubmission cfg w n v t).2
      = submissionRequests cfg.registry_url t ++ [submissionReq cfg n v] := by
  simp only [runSubmission]
  split_ifs <;>
    simp [submissionRequests, List.filter_append, List.filter_cons,
      isSubmissionReq_self cfg n v, isSubmissionReq_GET]

/-- C1: in every run of the publish workflow the trace contains at most
one submission request — none if the run aborted before the submission
step — and that request is the one selected by the update-mode flag: a
PUT to `/v0.1/servers/{name}/versions/{version}` when `update_mode` is
true, a POST to `/v0.1/publish` when it is false; a run that exits 0
issued exactly that one submission. No other endpoint receives a
submission. -/
theorem publish_submission_mode_selection (cfg : PublishConfig) (w : PublishWorld) :
    (submissionRequests cfg.registry_url (runPublish cfg w).2 = [] ∨
     submissionRequests cfg.registry_url (runPublish cfg w).2
       = [submissionReq cfg (descName w) (descVersion w)]) ∧
    ((runPublish cfg w).1 = 0 →
     submissionRequests cfg.registry_url (runPublish cfg w).2
       = [submissionReq cfg (descName w) (descVersion w)]) := by
  rcases hd : w.descriptor with he | d
  · simp [runPublish, hd, submissionRequests]
  · simp only [runPublish, hd]
    split_ifs
    all_goals
      first
      | (rw [submissionRequests_runSubmission]
         simp [submissionRequests, List.filter_append, List.filter_cons, schemaReq,
           isSubmissionReq_GET, isSubmissionReq_auth, descName, descVersion, hd])
      | simp [submissionRequests, List.filter_append, List.filter_cons, schemaReq,
          isSubmissionReq_GET, isSubmissionReq_auth]

/-- Witness for C1: a fully successful publish-mode run exits 0 having
issued exactly the one POST to `/v0.1/publish`. -/
theorem publish_submission_mode_selection_witness :
    (runPublish cfgPub pubOkW).1 = 0 ∧
    submissionRequests cfgPub.registry_url (runPublish cfgPub pubOkW).2
      = [submissionReq cfgPub (descName pubOkW) (descVersion pubOkW)] :=
  ⟨by decide, (publish_submission_mode_selection cfgPub pubOkW).2 (by decide)⟩

/-- C2: a run whose descriptor fails JSON-schema validation exits with a
non-zero code, and its trace contains only GET requests — in particular
no POST or PUT ever reaches a submission endpoint, so the registry state
is untouched. -/
theorem publish_validation_failure_no_submission (cfg : PublishConfig) (w : PublishWorld)
    (h : w.validationOk = false) :
    (runPublish cfg w).1 ≠ 0 ∧ ∀ r ∈ (runPublish cfg w).2, r.method = .GET := by
  rcases hd : w.descriptor with he | d
  · simp [runPublish, hd]
  · simp only [runPublish, hd, h]
    split_ifs <;> simp_all [schemaReq]

/-- Witness for C2: the concrete run whose descriptor fails validation. -/
theorem publish_validation_failure_no_submission_witness :
    (runPublish cfgPub pubBadValW).1 ≠ 0 ∧
    ∀ r ∈ (runPublish cfgPub pubBadValW).2, r.method = .GET :=
  publish_validation_failure_no_submission cfgPub pubBadValW rfl
